import Mathlib

/-!
Shallow embedding of the `OpenDelek` facade in `main.py` of the OpenDelek
repository, together with theorems settling the claims about its
request-processing and health-check behaviour.

The three collaborator classes (`SnowflakeConfig`, `ComplianceManager`,
`DelekOrchestrator`) are imported but not implemented in the repository, so
they are modelled as oracles: each collaborator method is a field giving the
outcome of one call, either a normal return value (`Except.ok`) or a raised
exception (`Except.error`).

Two module-level facts of `main.py` matter for the embedding and are modelled
explicitly: the statements `import datetime` and `import uuid` appear only
inside the `if __name__ == "__main__":` guard at the bottom of the file, so
the names `datetime` and `uuid` are unbound module globals whenever `main.py`
is imported as a module (the only way `process_request` or `health_check` is
reachable by a caller), and even when the guard has run, `datetime` names the
`datetime` module, which has no attribute `now`.
-/

/-- A raised Python exception, modelled as its type name and message. -/
structure Exn where
  name : String
  msg : String

/-- Python values passed between the facade and its collaborators:
strings, booleans, None, and dicts (as ordered association lists, the
order of the literal entries in the source). -/
inductive Value where
  | str : String → Value
  | bool : Bool → Value
  | none : Value
  | dict : List (String × Value) → Value

/-- Dict key access returning an optional value: `some` when the key is
present (Python `d[k]` succeeds), `none` when absent (Python raises
KeyError). On non-dict values the access fails. -/
def Value.lookup : Value → String → Option Value
  | .dict kvs, k => kvs.lookup k
  | _, _ => Option.none

/-- Result of `ComplianceManager.validate_request`: the facade reads the
attributes `is_compliant` and `reason` and passes the whole record on as
`compliance_context`. -/
structure ComplianceResult where
  is_compliant : Bool
  reason : String

/-- Oracle for the `SnowflakeConfig` collaborator: the outcome of a
`test_connection()` call. -/
structure SnowflakeConfig where
  test_connection : Except Exn Bool

/-- Oracle for the `ComplianceManager` collaborator: outcomes of
`validate_request`, `log_interaction` and `health_check` calls. -/
structure ComplianceManager where
  validate_request : String → Value → Except Exn ComplianceResult
  log_interaction : Value → String → Value → String → Except Exn Unit
  health_check : Except Exn Bool

/-- Oracle for the `DelekOrchestrator` collaborator: outcomes of
`execute_task`, `test_cortex_ai` and `test_containers` calls. -/
structure DelekOrchestrator where
  execute_task : String → Value → ComplianceResult → Except Exn Value
  test_cortex_ai : Except Exn Bool
  test_containers : Except Exn Bool

/-- The facade state: the three collaborator references assigned in
`OpenDelek.__init__` (`self.config`, `self.compliance_manager`,
`self.orchestrator`). -/
structure OpenDelek where
  config : SnowflakeConfig
  compliance_manager : ComplianceManager
  orchestrator : DelekOrchestrator

/-- Module-level name state of `main.py`: whether the `import uuid` and
`import datetime` statements inside the `if __name__ == "__main__":` guard
have executed (they bind the module globals `uuid` and `datetime`), and the
string the next `str(uuid.uuid4())` call would yield when `uuid` is bound. -/
structure ModuleEnv where
  uuid_bound : Bool
  datetime_bound : Bool
  next_uuid4 : String

/-- Evaluation of `str(uuid.uuid4())` in the except handler of
`process_request`: raises NameError when the module global `uuid` is
unbound (the guard never ran), otherwise yields a fresh identifier. -/
def str_uuid4 (m : ModuleEnv) : Except Exn String :=
  if m.uuid_bound then Except.ok m.next_uuid4
  else Except.error ⟨"NameError", "name uuid is not defined"⟩

/-- Evaluation of `datetime.now().isoformat()` in `health_check`: raises
NameError when the module global `datetime` is unbound, and AttributeError
when it is bound, because it is then the `datetime` module itself, which has
no attribute `now`. It never yields a timestamp. -/
def datetime_now_isoformat (m : ModuleEnv) : Except Exn String :=
  if m.datetime_bound then
    Except.error ⟨"AttributeError", "module datetime has no attribute now"⟩
  else
    Except.error ⟨"NameError", "name datetime is not defined"⟩

/-- One observed collaborator call made by `process_request`, with the
arguments the facade passed. -/
inductive CallEvent where
  | validate : String → Value → CallEvent
  | execute : String → Value → ComplianceResult → CallEvent
  | log : Value → String → Value → String → CallEvent

/-- Whether an event is a call to the orchestrator `execute_task`. -/
def CallEvent.isExecute : CallEvent → Bool
  | .execute _ _ _ => true
  | _ => false

/-- Whether an event is a `log_interaction` call whose `compliance_status`
argument equals the given label. -/
def CallEvent.isLogWith (status : String) : CallEvent → Bool
  | .log _ _ _ s => s == status
  | _ => false

/-- Embedding of `OpenDelek.process_request` (main.py lines 124 to 171).
The first component is the value returned to the caller (`Except.error`
meaning an exception escapes `process_request`), the second the trace of
collaborator calls in order, and the third the facade state after the call;
the method body assigns no attribute of `self`, so the state is returned
unchanged in every branch. The `try` block validates compliance, returns the
rejection record on a non-compliant result, otherwise runs the orchestrator,
logs the interaction with status COMPLIANT and returns the task result; the
`except` handler evaluates `str(uuid.uuid4())` to build the generic error
record, which itself raises NameError when `uuid` is unbound. -/
def OpenDelek.process_request (self : OpenDelek) (m : ModuleEnv)
    (user_input : String) (user_context : Value) :
    ((Except Exn Value) × List CallEvent) × OpenDelek :=
  let tryBody : (Except Exn Value) × List CallEvent :=
    match self.compliance_manager.validate_request user_input user_context with
    | .error e => (.error e, [.validate user_input user_context])
    | .ok compliance_result =>
      if !compliance_result.is_compliant then
        (.ok (.dict [("status", .str "rejected"),
            ("message", .str ("Request violates corporate policy: " ++ compliance_result.reason)),
            ("compliance_status", .str "NON_COMPLIANT")]),
          [.validate user_input user_context])
      else
        match self.orchestrator.execute_task user_input user_context compliance_result with
        | .error e =>
            (.error e,
              [.validate user_input user_context,
               .execute user_input user_context compliance_result])
        | .ok result =>
          match self.compliance_manager.log_interaction user_context user_input result "COMPLIANT" with
          | .error e =>
              (.error e,
                [.validate user_input user_context,
                 .execute user_input user_context compliance_result,
                 .log user_context user_input result "COMPLIANT"])
          | .ok _ =>
              (.ok result,
                [.validate user_input user_context,
                 .execute user_input user_context compliance_result,
                 .log user_context user_input result "COMPLIANT"])
  let handled : (Except Exn Value) × List CallEvent :=
    match tryBody with
    | (.ok v, tr) => (.ok v, tr)
    | (.error _, tr) =>
      match str_uuid4 m with
      | .error ne => (.error ne, tr)
      | .ok eid =>
          (.ok (.dict [("status", .str "error"),
              ("message", .str "An error occurred processing your request"),
              ("error_id", .str eid)]), tr)
  (handled, self)

/-- Embedding of `OpenDelek.health_check` (main.py lines 173 to 184). The
dict literal evaluates its entries in source order: the `"status"` entry is
the constant string "healthy" (independent of the probes), the four probe
calls populate `"components"`, and the `"timestamp"` entry evaluates
`datetime.now().isoformat()` last. The first exception raised aborts the
literal and propagates: the method has no try/except. The facade state is
returned unchanged (the body assigns no attribute of `self`). -/
def OpenDelek.health_check (self : OpenDelek) (m : ModuleEnv) :
    (Except Exn Value) × OpenDelek :=
  let r : Except Exn Value :=
    match self.config.test_connection with
    | .error e => .error e
    | .ok sc =>
      match self.orchestrator.test_cortex_ai with
      | .error e => .error e
      | .ok ca =>
        match self.compliance_manager.health_check with
        | .error e => .error e
        | .ok cs =>
          match self.orchestrator.test_containers with
          | .error e => .error e
          | .ok ct =>
            match datetime_now_isoformat m with
            | .error e => .error e
            | .ok ts =>
              .ok (.dict [("status", .str "healthy"),
                ("components", .dict
                  [("snowflake_connection", .bool sc),
                   ("cortex_ai", .bool ca),
                   ("compliance_system", .bool cs),
                   ("container_services", .bool ct)]),
                ("timestamp", .str ts)])
  (r, self)

/-- Embedding of `OpenDelek.__init__` (main.py lines 101 to 122): builds the
configuration, then the compliance manager from it, then the orchestrator
from both; the surrounding try/except logs and re-raises, so a constructor
exception propagates unchanged. The constructors are oracles supplied as
arguments. -/
def OpenDelek.mk_init (mkConfig : Except Exn SnowflakeConfig)
    (mkCompliance : SnowflakeConfig → Except Exn ComplianceManager)
    (mkOrch : SnowflakeConfig → ComplianceManager → Except Exn DelekOrchestrator) :
    Except Exn OpenDelek :=
  match mkConfig with
  | .error e => .error e
  | .ok config =>
    match mkCompliance config with
    | .error e => .error e
    | .ok compliance_manager =>
      match mkOrch config compliance_manager with
      | .error e => .error e
      | .ok orchestrator => .ok ⟨config, compliance_manager, orchestrator⟩

/-- Embedding of `main` (main.py lines 186 to 225): construct the facade,
run the health check, read `health["status"]` and compare it against
"healthy"; any exception in the try block (construction, health check, or a
KeyError from the missing key) is caught and yields exit code 1; a status
value different from the string "healthy" yields 1; otherwise 0. -/
def mainEntry (mkConfig : Except Exn SnowflakeConfig)
    (mkCompliance : SnowflakeConfig → Except Exn ComplianceManager)
    (mkOrch : SnowflakeConfig → ComplianceManager → Except Exn DelekOrchestrator)
    (m : ModuleEnv) : Nat :=
  match OpenDelek.mk_init mkConfig mkCompliance mkOrch with
  | .error _ => 1
  | .ok delek =>
    match (delek.health_check m).1 with
    | .error _ => 1
    | .ok health =>
      match health.lookup "status" with
      | Option.none => 1
      | some (Value.str s) => if s != "healthy" then 1 else 0
      | some _ => 1

/-- The module environment after the `if __name__ == "__main__":` guard has
run its two imports (the script path, in which `main` is then invoked):
`uuid` and `datetime` are bound module globals. -/
def scriptEnv (u : String) : ModuleEnv := ⟨true, true, u⟩

/-- The module environment when `main.py` is imported as a module: the
guard never runs, so `uuid` and `datetime` are unbound. -/
def importedEnv : ModuleEnv := ⟨false, false, "unused"⟩

/-- The exception raised by the first failing probe call in `health_check`,
if any: a later probe is only called after all earlier ones returned. -/
def firstProbeExn (self : OpenDelek) : Option Exn :=
  match self.config.test_connection with
  | .error e => some e
  | .ok _ =>
    match self.orchestrator.test_cortex_ai with
    | .error e => some e
    | .ok _ =>
      match self.compliance_manager.health_check with
      | .error e => some e
      | .ok _ =>
        match self.orchestrator.test_containers with
        | .error e => some e
        | .ok _ => Option.none

/-!
Concrete collaborator instances used by witnesses and by the evaluations at
failing inputs. They mirror the concrete scenarios of the specification:
user "u1" with role DELEK_USER, the rejection reason
"contains restricted keyword", and an orchestrator task result
with status "completed" and payload "3 invoices found".
-/

/-- The sample user context of the concrete scenarios. -/
def ucSample : Value := .dict [("user_id", .str "u1"), ("role", .str "DELEK_USER")]

/-- The sample orchestrator task result of the concrete scenarios. -/
def taskSample : Value := .dict [("status", .str "completed"), ("result", .str "3 invoices found")]

/-- A configuration oracle whose connectivity probe succeeds. -/
def cfgOk : SnowflakeConfig := ⟨.ok true⟩

/-- A compliance oracle that rejects every request with the reason
"contains restricted keyword" and whose other calls succeed. -/
def cmReject : ComplianceManager :=
  ⟨fun _ _ => .ok ⟨false, "contains restricted keyword"⟩, fun _ _ _ _ => .ok (), .ok true⟩

/-- A compliance oracle that accepts every request and whose other calls
succeed. -/
def cmAccept : ComplianceManager :=
  ⟨fun _ _ => .ok ⟨true, "ok"⟩, fun _ _ _ _ => .ok (), .ok true⟩

/-- A compliance oracle whose `validate_request` raises ValueError. -/
def cmValidateRaises : ComplianceManager :=
  ⟨fun _ _ => .error ⟨"ValueError", "bad input"⟩, fun _ _ _ _ => .ok (), .ok true⟩

/-- A compliance oracle that accepts every request but whose
`log_interaction` raises OSError. -/
def cmLogRaises : ComplianceManager :=
  ⟨fun _ _ => .ok ⟨true, "ok"⟩, fun _ _ _ _ => .error ⟨"OSError", "audit store down"⟩, .ok true⟩

/-- An orchestrator oracle that returns the sample task result and whose
probes succeed. -/
def orchOk : DelekOrchestrator := ⟨fun _ _ _ => .ok taskSample, .ok true, .ok true⟩

/-- An orchestrator oracle whose `execute_task` raises RuntimeError. -/
def orchRaises : DelekOrchestrator :=
  ⟨fun _ _ _ => .error ⟨"RuntimeError", "cortex unavailable"⟩, .ok true, .ok true⟩

/-- A facade over the rejecting compliance oracle. -/
def delekReject : OpenDelek := ⟨cfgOk, cmReject, orchOk⟩

/-- A facade over the accepting compliance oracle and succeeding
orchestrator. -/
def delekOk : OpenDelek := ⟨cfgOk, cmAccept, orchOk⟩

/-- A facade whose `validate_request` raises. -/
def delekValidateRaises : OpenDelek := ⟨cfgOk, cmValidateRaises, orchOk⟩

/-- A facade whose `execute_task` raises. -/
def delekExecRaises : OpenDelek := ⟨cfgOk, cmAccept, orchRaises⟩

/-- A facade whose `log_interaction` raises after a successful task. -/
def delekLogRaises : OpenDelek := ⟨cfgOk, cmLogRaises, orchOk⟩

/-- Claim C1: when `validate_request` returns a non-compliant result,
`process_request` returns a record with status "rejected", the orchestrator
`execute_task` is never invoked (zero calls in the trace), and
`log_interaction` is never called with compliance_status COMPLIANT. -/
theorem non_compliant_request_is_rejected_without_orchestrator
    (self : OpenDelek) (m : ModuleEnv) (ui : String) (uc : Value)
    (cr : ComplianceResult)
    (hv : self.compliance_manager.validate_request ui uc = .ok cr)
    (hc : cr.is_compliant = false) :
    (∃ rec, (self.process_request m ui uc).1.1 = .ok rec ∧
      rec.lookup "status" = some (.str "rejected")) ∧
    ((self.process_request m ui uc).1.2.countP CallEvent.isExecute = 0) ∧
    (∀ ev ∈ (self.process_request m ui uc).1.2, CallEvent.isLogWith "COMPLIANT" ev = false) := by
  have key : self.process_request m ui uc =
      ((Except.ok (Value.dict [("status", Value.str "rejected"),
          ("message", Value.str ("Request violates corporate policy: " ++ cr.reason)),
          ("compliance_status", Value.str "NON_COMPLIANT")]),
        [CallEvent.validate ui uc]), self) := by
    simp [OpenDelek.process_request, hv, hc]
  refine ⟨⟨Value.dict [("status", Value.str "rejected"),
      ("message", Value.str ("Request violates corporate policy: " ++ cr.reason)),
      ("compliance_status", Value.str "NON_COMPLIANT")], ?_, rfl⟩, ?_, ?_⟩
  · rw [key]
  · rw [key]
    rfl
  · rw [key]
    intro ev hev
    rw [List.mem_singleton] at hev
    subst hev
    rfl

/-- Witness for C1: the rejecting facade on the sample input. -/
theorem non_compliant_request_is_rejected_without_orchestrator_witness :
    (∃ rec, (delekReject.process_request importedEnv "list open invoices" ucSample).1.1 = .ok rec ∧
      rec.lookup "status" = some (.str "rejected")) ∧
    ((delekReject.process_request importedEnv "list open invoices" ucSample).1.2.countP CallEvent.isExecute = 0) ∧
    (∀ ev ∈ (delekReject.process_request importedEnv "list open invoices" ucSample).1.2,
      CallEvent.isLogWith "COMPLIANT" ev = false) :=
  non_compliant_request_is_rejected_without_orchestrator delekReject importedEnv
    "list open invoices" ucSample ⟨false, "contains restricted keyword"⟩ rfl rfl

/-- Claim C2: when `validate_request` returns a compliant result and no
collaborator call raises, `process_request` calls `execute_task` exactly
once with the same user_input and user_context, afterwards calls
`log_interaction` exactly once with compliance_status COMPLIANT and the same
user_context, user_input and the task result, and returns the task result
unmodified: the whole outcome is the task result together with exactly this
three-event trace, and the facade state is unchanged. -/
theorem compliant_request_runs_orchestrator_once_and_logs
    (self : OpenDelek) (m : ModuleEnv) (ui : String) (uc : Value)
    (cr : ComplianceResult) (r : Value)
    (hv : self.compliance_manager.validate_request ui uc = .ok cr)
    (hc : cr.is_compliant = true)
    (he : self.orchestrator.execute_task ui uc cr = .ok r)
    (hl : self.compliance_manager.log_interaction uc ui r "COMPLIANT" = .ok ()) :
    self.process_request m ui uc =
      ((Except.ok r,
        [CallEvent.validate ui uc,
         CallEvent.execute ui uc cr,
         CallEvent.log uc ui r "COMPLIANT"]), self) := by
  simp [OpenDelek.process_request, hv, hc, he, hl]

/-- Witness for C2: the accepting facade on the sample input returns the
sample task result with the three-event trace. -/
theorem compliant_request_runs_orchestrator_once_and_logs_witness :
    delekOk.process_request importedEnv "list open invoices" ucSample =
      ((Except.ok taskSample,
        [CallEvent.validate "list open invoices" ucSample,
         CallEvent.execute "list open invoices" ucSample ⟨true, "ok"⟩,
         CallEvent.log ucSample "list open invoices" taskSample "COMPLIANT"]), delekOk) :=
  compliant_request_runs_orchestrator_once_and_logs delekOk importedEnv
    "list open invoices" ucSample ⟨true, "ok"⟩ taskSample rfl rfl rfl rfl

/-- Claim C3: when `validate_request` returns a non-compliant result with
reason r, the record returned to the caller is exactly the dict with status
"rejected", message "Request violates corporate policy: " followed by r, and
compliance_status NON_COMPLIANT. -/
theorem rejection_record_shape
    (self : OpenDelek) (m : ModuleEnv) (ui : String) (uc : Value) (r : String)
    (hv : self.compliance_manager.validate_request ui uc = .ok ⟨false, r⟩) :
    (self.process_request m ui uc).1.1 =
      Except.ok (Value.dict [("status", Value.str "rejected"),
        ("message", Value.str ("Request violates corporate policy: " ++ r)),
        ("compliance_status", Value.str "NON_COMPLIANT")]) := by
  simp [OpenDelek.process_request, hv]

/-- Witness for C3: the concrete scenario of the specification, reason
"contains restricted keyword", yields exactly the expected rejection
record. -/
theorem rejection_record_shape_witness :
    (delekReject.process_request importedEnv "list open invoices" ucSample).1.1 =
      Except.ok (Value.dict [("status", Value.str "rejected"),
        ("message", Value.str ("Request violates corporate policy: " ++ "contains restricted keyword")),
        ("compliance_status", Value.str "NON_COMPLIANT")]) :=
  rejection_record_shape delekReject importedEnv "list open invoices" ucSample
    "contains restricted keyword" rfl

/-- Claim C4 (evaluation at the failing input): with the module imported
(the `if __name__ == "__main__":` guard never ran, so `uuid` is unbound)
and a `validate_request` call that raises ValueError, `process_request`
does not return the generic error record: the except handler evaluates
`str(uuid.uuid4())` and the resulting NameError escapes to the caller. -/
theorem error_handler_raises_nameerror_on_validate_failure :
    (delekValidateRaises.process_request importedEnv "list open invoices" ucSample).1.1 =
      Except.error ⟨"NameError", "name uuid is not defined"⟩ := rfl

/-- Claim C5 (evaluation at the failing input): with the module imported
and an `execute_task` call that raises RuntimeError, `process_request`
itself raises (NameError from the except handler), so the caller does not
receive a structured record at all. -/
theorem process_request_raises_on_orchestrator_failure :
    (delekExecRaises.process_request importedEnv "list open invoices" ucSample).1.1 =
      Except.error ⟨"NameError", "name uuid is not defined"⟩ := rfl

/-- Claim C10 (evaluation at the failing input): with the module imported,
a compliant request whose `execute_task` succeeds with the sample task
result but whose `log_interaction` raises OSError discards the computed
task result; the caller receives neither the task result nor the generic
error record but the NameError escaping from the except handler, while the
trace shows the task was fully executed. -/
theorem completed_task_discarded_when_logging_fails :
    (delekLogRaises.process_request importedEnv "list open invoices" ucSample).1 =
      (Except.error ⟨"NameError", "name uuid is not defined"⟩,
       [CallEvent.validate "list open invoices" ucSample,
        CallEvent.execute "list open invoices" ucSample ⟨true, "ok"⟩,
        CallEvent.log ucSample "list open invoices" taskSample "COMPLIANT"]) := rfl

/-- Claim C6 (evaluation at the failing input): even when all four probes
succeed, `health_check` never returns a record: evaluating the
`"timestamp"` entry raises NameError when the module is imported and
AttributeError when the script guard ran, because `datetime.now()` is
invalid either way; in addition the `"status"` entry is the constant
"healthy" independent of the probe values. -/
theorem health_check_raises_despite_healthy_probes :
    (delekOk.health_check importedEnv).1 =
      Except.error ⟨"NameError", "name datetime is not defined"⟩ ∧
    (delekOk.health_check (scriptEnv "uuid-1")).1 =
      Except.error ⟨"AttributeError", "module datetime has no attribute now"⟩ := ⟨rfl, rfl⟩

/-- Claim C7: when one of the four probe calls raises (all probes before it
having returned, since a later probe is only called after the earlier ones),
that exception propagates uncaught out of `health_check`. -/
theorem probe_exception_propagates_from_health_check
    (self : OpenDelek) (m : ModuleEnv) (e : Exn)
    (h : firstProbeExn self = some e) :
    (self.health_check m).1 = Except.error e := by
  unfold firstProbeExn at h
  unfold OpenDelek.health_check
  cases h1 : self.config.test_connection with
  | error e1 => rw [h1] at h; injection h with h; subst h; rfl
  | ok b1 =>
    rw [h1] at h
    cases h2 : self.orchestrator.test_cortex_ai with
    | error e2 => rw [h2] at h; injection h with h; subst h; simp [h1, h2]
    | ok b2 =>
      rw [h2] at h
      cases h3 : self.compliance_manager.health_check with
      | error e3 => rw [h3] at h; injection h with h; subst h; simp [h1, h2, h3]
      | ok b3 =>
        rw [h3] at h
        cases h4 : self.orchestrator.test_containers with
        | error e4 => rw [h4] at h; injection h with h; subst h; simp [h1, h2, h3, h4]
        | ok b4 => rw [h4] at h; simp at h

/-- Witness for C7: a facade whose compliance probe raises RuntimeError
propagates exactly that exception. -/
theorem probe_exception_propagates_from_health_check_witness :
    ((⟨cfgOk, ⟨fun _ _ => .ok ⟨true, "ok"⟩, fun _ _ _ _ => .ok (),
        .error ⟨"RuntimeError", "compliance db down"⟩⟩, orchOk⟩ : OpenDelek).health_check
      importedEnv).1 = Except.error ⟨"RuntimeError", "compliance db down"⟩ :=
  probe_exception_propagates_from_health_check
    ⟨cfgOk, ⟨fun _ _ => .ok ⟨true, "ok"⟩, fun _ _ _ _ => .ok (),
      .error ⟨"RuntimeError", "compliance db down"⟩⟩, orchOk⟩ importedEnv
    ⟨"RuntimeError", "compliance db down"⟩ rfl

/-- Claim C8 (evaluation at the failing input): with every collaborator
constructor succeeding and all four probes healthy, `main` still exits with
code 1, because `health_check` raises at `datetime.now()` (here
AttributeError, since the script guard bound `datetime` to the module) and
the exception is caught by the try block of `main`; the exit-0 branch is
unreachable. -/
theorem main_exits_one_despite_healthy_system :
    mainEntry (Except.ok cfgOk) (fun _ => Except.ok cmAccept)
      (fun _ _ => Except.ok orchOk) (scriptEnv "uuid-1") = 1 := rfl

/-- Claim C9: the three collaborator references are exactly the ones
assigned at construction (when each constructor succeeds, `mk_init` yields
precisely the record of the three constructed collaborators), and both
`process_request` and `health_check` return the facade state unchanged:
their bodies assign no attribute of `self`. -/
theorem facade_state_is_construction_only
    (self : OpenDelek) (m : ModuleEnv) (ui : String) (uc : Value)
    (mkConfig : Except Exn SnowflakeConfig)
    (mkCompliance : SnowflakeConfig → Except Exn ComplianceManager)
    (mkOrch : SnowflakeConfig → ComplianceManager → Except Exn DelekOrchestrator)
    (c : SnowflakeConfig) (cm : ComplianceManager) (o : DelekOrchestrator)
    (h1 : mkConfig = .ok c) (h2 : mkCompliance c = .ok cm) (h3 : mkOrch c cm = .ok o) :
    (self.process_request m ui uc).2 = self ∧
    (self.health_check m).2 = self ∧
    OpenDelek.mk_init mkConfig mkCompliance mkOrch = Except.ok ⟨c, cm, o⟩ := by
  refine ⟨rfl, rfl, ?_⟩
  simp [OpenDelek.mk_init, h1, h2, h3]

/-- Witness for C9: concrete facade, inputs and successful constructors. -/
theorem facade_state_is_construction_only_witness :
    (delekOk.process_request importedEnv "list open invoices" ucSample).2 = delekOk ∧
    (delekOk.health_check importedEnv).2 = delekOk ∧
    OpenDelek.mk_init (Except.ok cfgOk) (fun _ => Except.ok cmAccept)
      (fun _ _ => Except.ok orchOk) = Except.ok ⟨cfgOk, cmAccept, orchOk⟩ :=
  facade_state_is_construction_only delekOk importedEnv "list open invoices" ucSample
    (Except.ok cfgOk) (fun _ => Except.ok cmAccept) (fun _ _ => Except.ok orchOk)
    cfgOk cmAccept orchOk rfl rfl rfl
